import Mathlib

/-!
Verification of the scroll-to-top component
(`src/tawala/static/tawala/js/scroll-top.js`).

The source is a 19-line script:

  const scrollTop = document.getElementById("scroll-top");
  function toggleScrollTop() {
    if (scrollTop) {
      window.scrollY > 100
        ? scrollTop.classList.add("active")
        : scrollTop.classList.remove("active");
    }
  }
  scrollTop.addEventListener("click", (e) => {
    e.preventDefault();
    window.scrollTo({ top: 0, behavior: "smooth" });
  });
  window.addEventListener("load", toggleScrollTop);
  document.addEventListener("scroll", toggleScrollTop);

We shallowly embed it: DOM state is the (optional) classList of the
control element together with the current vertical scroll offset; the
effects a handler sends to the host (preventDefault, scrollTo, element
lookup) are recorded in an explicit command trace; the top-level script
runs in `Except`, because calling `addEventListener` on a null element
reference throws a TypeError in JavaScript.
-/

namespace ScrollTop

/-- The class name used as the visual "active" marker in the source. -/
def activeClass : String := "active"

/-- Commands a handler can issue to the host environment (Viewport /
Document): suppress an event's default behavior, scroll to a vertical
offset (with the smooth flag), or look an element up by id. -/
inductive Command where
  | preventDefault : Command
  | scrollTo : Nat → Bool → Command
  | lookupElement : String → Command
deriving DecidableEq, Repr

/-- The classList of a DOM element: a duplicate-free-by-construction
list of class names (the DOM API itself never stores duplicates; `add`
below is a no-op when the class is present). -/
abbrev ClassList := List String

/-- Observable DOM state: the control element's classList (`none` when
`document.getElementById("scroll-top")` found nothing) and the current
vertical scroll offset `window.scrollY`. -/
structure DOMState where
  control : Option ClassList
  scrollY : Nat
deriving DecidableEq, Repr

/-- DOM `classList.add`: appends the class unless it is already present. -/
def classListAdd (cs : ClassList) (c : String) : ClassList :=
  if c ∈ cs then cs else cs ++ [c]

/-- DOM `classList.remove`: removes every occurrence of the class. -/
def classListRemove (cs : ClassList) (c : String) : ClassList :=
  cs.filter (fun x => decide (x ≠ c))

/-- Embeds `toggleScrollTop` (scroll-top.js lines 3-9): if the control
reference is non-null, add the "active" class when `window.scrollY > 100`
and remove it otherwise; if the reference is null, do nothing.  The
second component is the trace of host commands issued (none). -/
def toggleScrollTop (st : DOMState) : DOMState × List Command :=
  match st.control with
  | none => (st, [])
  | some cs =>
      if st.scrollY > 100 then
        ({ st with control := some (classListAdd cs activeClass) }, [])
      else
        ({ st with control := some (classListRemove cs activeClass) }, [])

/-- Embeds the anonymous click handler (scroll-top.js lines 10-16), the
spec's `onActivate`: it calls `e.preventDefault()` and then
`window.scrollTo({ top: 0, behavior: "smooth" })`, touching no DOM
state. -/
def onActivate (st : DOMState) : DOMState × List Command :=
  (st, [Command.preventDefault, Command.scrollTo 0 true])

/-- The two handlers this component registers with the host. -/
inductive Handler where
  | toggle : Handler
  | activate : Handler
deriving DecidableEq, Repr

/-- An event-listener registration: event name paired with the handler. -/
abbrev Registration := String × Handler

/-- Embeds `target.addEventListener(ev, h)` on a possibly-null target:
on a null reference JavaScript throws a TypeError; otherwise the
registration is recorded. -/
def addEventListenerOn {α : Type} (target : Option α) (ev : String)
    (h : Handler) : Except String Registration :=
  match target with
  | none =>
      Except.error
        "TypeError: Cannot read properties of null (reading addEventListener)"
  | some _ => Except.ok (ev, h)

/-- Embeds the top-level script run (scroll-top.js lines 1-19): the
control reference is resolved once (the `lookup` argument is the result
of `document.getElementById("scroll-top")`); the click handler is then
bound on it UNCONDITIONALLY, and `toggleScrollTop` is registered for the
window's "load" and the document's "scroll" events. `window` and
`document` always exist, so those two targets are `some ()`. -/
def initScript (lookup : Option ClassList) :
    Except String (List Registration) := do
  let scrollTop := lookup
  let rClick ← addEventListenerOn scrollTop "click" Handler.activate
  let rLoad ← addEventListenerOn (some ()) "load" Handler.toggle
  let rScroll ← addEventListenerOn (some ()) "scroll" Handler.toggle
  pure [rClick, rLoad, rScroll]

/-- The handlers that fire, in registration order, when the host
dispatches the event named `ev`. -/
def handlersFor (regs : List Registration) (ev : String) : List Handler :=
  (regs.filter (fun r => decide (r.1 = ev))).map Prod.snd

/-- Runs one handler on the current DOM state. -/
def runHandler : Handler → DOMState → DOMState × List Command
  | Handler.toggle, st => toggleScrollTop st
  | Handler.activate, st => onActivate st

/-- Dispatches one host event: every handler registered for it runs, in
order, threading the DOM state and accumulating the command trace. -/
def dispatch (regs : List Registration) (ev : String) (st : DOMState) :
    DOMState × List Command :=
  (handlersFor regs ev).foldl
    (fun acc h =>
      let r := runHandler h acc.1
      (r.1, acc.2 ++ r.2))
    (st, [])

/-- Runs a whole session: the host delivers a list of events after
initialization, each dispatched in turn. -/
def runSession (regs : List Registration) (events : List String)
    (st : DOMState) : DOMState × List Command :=
  events.foldl
    (fun acc ev =>
      let r := dispatch regs ev acc.1
      (r.1, acc.2 ++ r.2))
    (st, [])

/-- Whether the control element currently carries the class `c`
(false when the control is absent). -/
def hasClass (st : DOMState) (c : String) : Bool :=
  match st.control with
  | none => false
  | some cs => decide (c ∈ cs)

/-- Whether the control currently carries the visual "active" marker. -/
def controlIsActive (st : DOMState) : Bool :=
  hasClass st activeClass

/- ## Helper lemmas on classList operations -/

theorem mem_classListAdd (cs : ClassList) (c x : String) :
    x ∈ classListAdd cs c ↔ (x ∈ cs ∨ x = c) := by
  unfold classListAdd
  by_cases h : c ∈ cs
  · simp only [if_pos h]
    constructor
    · exact Or.inl
    · rintro (hx | rfl)
      · exact hx
      · exact h
  · simp [if_neg h]

theorem mem_classListRemove (cs : ClassList) (c x : String) :
    x ∈ classListRemove cs c ↔ (x ∈ cs ∧ x ≠ c) := by
  unfold classListRemove
  simp [List.mem_filter]

theorem classListAdd_idem (cs : ClassList) (c : String) :
    classListAdd (classListAdd cs c) c = classListAdd cs c := by
  have h : c ∈ classListAdd cs c := (mem_classListAdd cs c c).mpr (Or.inr rfl)
  unfold classListAdd
  rw [if_pos]
  exact h

theorem classListRemove_idem (cs : ClassList) (c : String) :
    classListRemove (classListRemove cs c) c = classListRemove cs c := by
  unfold classListRemove
  induction cs with
  | nil => rfl
  | cons a t ih =>
      by_cases h : a = c
      · simp [h, ih]
      · simp [List.filter_cons, h, ih]

theorem not_mem_classListRemove (cs : ClassList) (c : String) :
    c ∉ classListRemove cs c := by
  intro h
  exact ((mem_classListRemove cs c c).mp h).2 rfl

/- ## Invariant helpers for event dispatch -/

/-- One handler run never changes whether the control reference exists
and never issues an element lookup. -/
theorem runHandler_invariant (h : Handler) (st : DOMState) :
    ((runHandler h st).1).control.isSome = st.control.isSome ∧
      Command.lookupElement "scroll-top" ∉ (runHandler h st).2 := by
  cases h with
  | toggle =>
      obtain ⟨ctrl, y⟩ := st
      cases ctrl with
      | none => simp [runHandler, toggleScrollTop]
      | some cs =>
          by_cases hy : y > 100 <;>
            simp [runHandler, toggleScrollTop, hy]
  | activate => simp [runHandler, onActivate]

/-- Folding a step function that preserves control presence and issues
no element lookup keeps both invariants across any list of inputs. -/
theorem foldSteps_invariant {α : Type}
    (f : α → DOMState → DOMState × List Command)
    (hf : ∀ a st, ((f a st).1).control.isSome = st.control.isSome ∧
        Command.lookupElement "scroll-top" ∉ (f a st).2)
    (xs : List α) (st : DOMState) (tr : List Command) :
    (((xs.foldl (fun acc a =>
        let r := f a acc.1
        (r.1, acc.2 ++ r.2)) (st, tr)).1).control.isSome
          = st.control.isSome) ∧
    (Command.lookupElement "scroll-top" ∈
        (xs.foldl (fun acc a =>
          let r := f a acc.1
          (r.1, acc.2 ++ r.2)) (st, tr)).2 →
      Command.lookupElement "scroll-top" ∈ tr) := by
  induction xs generalizing st tr with
  | nil => exact ⟨rfl, id⟩
  | cons a t ih =>
      simp only [List.foldl_cons]
      obtain ⟨ih1, ih2⟩ := ih (f a st).1 (tr ++ (f a st).2)
      refine ⟨ih1.trans (hf a st).1, fun hm => ?_⟩
      rcases List.mem_append.mp (ih2 hm) with h | h
      · exact h
      · exact absurd h (hf a st).2

/-- Dispatching one event never changes whether the control reference
exists and never issues an element lookup. -/
theorem dispatch_invariant (regs : List Registration) (ev : String)
    (st : DOMState) :
    ((dispatch regs ev st).1).control.isSome = st.control.isSome ∧
      Command.lookupElement "scroll-top" ∉ (dispatch regs ev st).2 := by
  have h := foldSteps_invariant runHandler runHandler_invariant
    (handlersFor regs ev) st []
  exact ⟨h.1, fun hm => by simpa using h.2 hm⟩

/- ## Claim theorems -/

/-- C1: the claim says initialization — including the click-listener
binding — completes without throwing when the control element is not
found.  The code refutes this: with a null lookup result, the top-level
`scrollTop.addEventListener("click", ...)` call dereferences null, and
the script run ends in a TypeError.  (This theorem evaluates the
embedded script at the failing input.) -/
theorem initScript_throws_on_absent_control :
    initScript none =
      Except.error
        "TypeError: Cannot read properties of null (reading addEventListener)" :=
  rfl

/-- C2: threshold law — when the control exists, after `toggleScrollTop`
the control carries the "active" marker iff the scroll offset exceeds
100; in particular the exact boundary offset 100 leaves it inactive. -/
theorem toggleScrollTop_threshold (cs : ClassList) (y : Nat) :
    (controlIsActive
        (toggleScrollTop { control := some cs, scrollY := y }).1
      = decide (y > 100)) ∧
    (controlIsActive
        (toggleScrollTop { control := some cs, scrollY := 100 }).1
      = false) := by
  constructor
  · by_cases h : y > 100
    · simp [toggleScrollTop, controlIsActive, hasClass, h, mem_classListAdd]
    · simp [toggleScrollTop, controlIsActive, hasClass, h,
        not_mem_classListRemove]
  · simp [toggleScrollTop, controlIsActive, hasClass,
      not_mem_classListRemove]

/-- C3: activation effect — one invocation of the click handler issues
exactly one scroll-to command with target offset 0 and smooth behavior,
exactly one suppression of the event's default, and nothing else. -/
theorem onActivate_effect (st : DOMState) :
    ((onActivate st).2.count (Command.scrollTo 0 true) = 1) ∧
    ((onActivate st).2.count Command.preventDefault = 1) ∧
    ((onActivate st).2.all (fun c =>
        c == Command.preventDefault || c == Command.scrollTo 0 true)
      = true) := by
  refine ⟨?_, ?_, ?_⟩ <;> rfl

/-- C4: idempotence — running `toggleScrollTop` twice at an unchanged
scroll offset leaves exactly the same DOM state as running it once. -/
theorem toggleScrollTop_idempotent (st : DOMState) :
    (toggleScrollTop (toggleScrollTop st).1).1 = (toggleScrollTop st).1 := by
  obtain ⟨ctrl, y⟩ := st
  cases ctrl with
  | none => rfl
  | some cs =>
      by_cases h : y > 100
      · simp [toggleScrollTop, h, classListAdd_idem]
      · simp [toggleScrollTop, h, classListRemove_idem]

/-- C5: absent-control no-op — when the control reference is null,
`toggleScrollTop` changes no state, issues no command, and signals no
error (it is a total function). -/
theorem toggleScrollTop_absent_noop (y : Nat) :
    toggleScrollTop { control := none, scrollY := y }
      = ({ control := none, scrollY := y }, []) :=
  rfl

/-- C6: ordering — in the click handler's command trace, the
suppression of the default behavior occurs, and occurs strictly before
the scroll-to-0 command, so default anchor navigation never happens. -/
theorem onActivate_preventDefault_first (st : DOMState) :
    Command.preventDefault ∈ (onActivate st).2 ∧
    (onActivate st).2.indexOf Command.preventDefault <
      (onActivate st).2.indexOf (Command.scrollTo 0 true) := by
  refine ⟨List.mem_cons_self _ _, ?_⟩
  show (0 : Nat) < 1
  exact Nat.zero_lt_one

/-- C7: wiring — after a successful initialization, dispatching any
host event runs `toggleScrollTop` exactly once if the event is "load"
or "scroll", and never otherwise (a "click" runs only the activation
handler). -/
theorem wiring_toggle_invocations (cs : ClassList)
    (regs : List Registration)
    (h : initScript (some cs) = Except.ok regs) (ev : String) :
    (handlersFor regs ev).count Handler.toggle
      = (if ev = "load" ∨ ev = "scroll" then 1 else 0) := by
  have hregs : regs = [("click", Handler.activate), ("load", Handler.toggle),
      ("scroll", Handler.toggle)] := by
    have : Except.ok (ε := String) [("click", Handler.activate),
        ("load", Handler.toggle), ("scroll", Handler.toggle)]
          = Except.ok regs := h
    cases this
    rfl
  subst hregs
  by_cases hl : ev = "load"
  · subst hl
    simp [handlersFor]
  · by_cases hs : ev = "scroll"
    · subst hs
      simp [handlersFor]
    · by_cases hc : ev = "click"
      · subst hc
        simp [handlersFor]
      · have hl' : ¬("load" = ev) := fun h => hl h.symm
        have hs' : ¬("scroll" = ev) := fun h => hs h.symm
        have hc' : ¬("click" = ev) := fun h => hc h.symm
        simp [handlersFor, hl', hs', hc', hl, hs]

/-- Witness for C7 at the concrete input `cs = []`, `ev = "load"`. -/
theorem wiring_toggle_invocations_witness :
    (handlersFor [("click", Handler.activate), ("load", Handler.toggle),
        ("scroll", Handler.toggle)] "load").count Handler.toggle
      = (if ("load" : String) = "load" ∨ ("load" : String) = "scroll"
          then 1 else 0) :=
  wiring_toggle_invocations [] _ rfl "load"

/-- C8: reference stability — across any session of host events after
initialization, the control reference is never created, destroyed or
re-resolved: its presence is unchanged and no handler ever issues a
fresh `getElementById` lookup. -/
theorem control_reference_stable (regs : List Registration)
    (events : List String) (st : DOMState) :
    ((runSession regs events st).1).control.isSome = st.control.isSome ∧
      Command.lookupElement "scroll-top" ∉ (runSession regs events st).2 := by
  have h := foldSteps_invariant (fun ev st => dispatch regs ev st)
    (fun ev st => dispatch_invariant regs ev st) events st []
  exact ⟨h.1, fun hm => by simpa using h.2 hm⟩

/-- C9: frame of `toggleScrollTop` — it issues no host command, leaves
the scroll offset and the presence of the control unchanged, and
changes no class membership other than that of "active". -/
theorem toggleScrollTop_frame (st : DOMState) (c : String)
    (hc : c ≠ activeClass) :
    (toggleScrollTop st).2 = [] ∧
    (toggleScrollTop st).1.scrollY = st.scrollY ∧
    (toggleScrollTop st).1.control.isSome = st.control.isSome ∧
    hasClass (toggleScrollTop st).1 c = hasClass st c := by
  obtain ⟨ctrl, y⟩ := st
  cases ctrl with
  | none => exact ⟨rfl, rfl, rfl, rfl⟩
  | some cs =>
      by_cases h : y > 100
      · refine ⟨?_, ?_, ?_, ?_⟩ <;>
          simp [toggleScrollTop, h, hasClass, mem_classListAdd, hc]
      · refine ⟨?_, ?_, ?_, ?_⟩ <;>
          simp [toggleScrollTop, h, hasClass, mem_classListRemove, hc]

/-- Witness for C9 at the concrete state with classList ["x"] and
offset 150, and class c = "x". -/
theorem toggleScrollTop_frame_witness :
    hasClass (toggleScrollTop { control := some ["x"], scrollY := 150 }).1 "x"
      = hasClass { control := some ["x"], scrollY := 150 } "x" :=
  (toggleScrollTop_frame { control := some ["x"], scrollY := 150 } "x"
    (by decide)).2.2.2

/-- C10: frame of activation — the click handler changes neither the
control's classList nor, in particular, its "active" visual marker. -/
theorem onActivate_preserves_visual_state (st : DOMState) :
    (onActivate st).1.control = st.control ∧
    controlIsActive (onActivate st).1 = controlIsActive st :=
  ⟨rfl, rfl⟩

end ScrollTop
